import Mathlib

/-! autocert: a TLS listener on top of an automatic certificate manager

A shallow embedding of `autocert.go` (package `autocert` of thepaul/autocert).

The Go file is a thin wrapper: a constructor that fills in an
`autocert.Manager`, a `Listen` method that binds a transport listener, and a
`listener` type whose `Accept` turns raw connections into TLS server
connections.  Everything the wrapper calls in the operating system or in
package `net` is an effect; effects are modelled by an environment `Env`
(what each call answers, given the history so far) and a `World` that records
every call in order.  A Go `(value, error)` result is a pair of options,
`none` standing for `nil`.  A Go run-time panic is the `Outcome.panic` result.
-/

namespace Autocert

/-! ## Values of the Go standard library used by the wrapper -/

/-- A non-nil Go `error` value. -/
structure Error where
  msg : String
deriving DecidableEq, Repr

/-- Go `time.Duration`: a count of nanoseconds. -/
abbrev Duration := Int

def Nanosecond : Duration := 1
def Microsecond : Duration := 1000 * Nanosecond
def Millisecond : Duration := 1000 * Microsecond
def Second : Duration := 1000 * Millisecond
def Minute : Duration := 60 * Second
def Hour : Duration := 60 * Minute

/-- Go `context.Context`, as far as a host policy can see it. -/
structure Context where
  id : Nat
deriving DecidableEq, Repr

/-- The type `autocert.HostPolicy` (line 14): `func(ctx, host) error`; a `nil`
error (`none`) approves the host. -/
abbrev HostPolicy := Context → String → Option Error

/-- The `autocert.Cache` interface values the wrapper builds: `autocert.DirCache`
is a string type holding the directory path. -/
inductive Cache where
  | DirCache (dir : String)
deriving DecidableEq, Repr

/-- The function `autocert.AcceptTOS`: it accepts every terms-of-service URL. -/
def AcceptTOS (_tosURL : String) : Bool := true

/-- The fields of `autocert.Manager` that the wrapper sets (lines 46-52).
Function- and interface-typed fields are options, `none` being `nil`. -/
structure Manager where
  Prompt : Option (String → Bool)
  Cache : Option Cache
  HostPolicy : Option HostPolicy
  RenewBefore : Duration
  Email : String

/-- The struct `certManager` (lines 26-28): it embeds the `*autocert.Manager`. -/
structure certManager where
  Manager : Manager

/-- The interface `CertManager` (lines 21-24) as a value: `none` is the nil
interface, `some m` holds the `*certManager`. -/
abbrev CertManager := Option certManager

/-- The certificate-selection hook of a `tls.Config`: the function the TLS
handshake calls with the client's server name. -/
inductive CertHook where
  | managerGetCertificate (m : Manager)

/-- The parts of a `tls.Config` that decide which certificate is served: the
`GetCertificate` hook and the statically configured certificates. -/
structure TLSConfig where
  GetCertificate : Option CertHook
  Certificates : List String

/-- Modelled from the spec: the method `TLSConfig` of the embedded
`autocert.Manager` is not in the source file.  The spec (section 6, TLS
configuration surface) says it "exposes a standard TLS server configuration
object whose certificate-selection hook is wired to the Certificate Store", and
section 4.6 that no fallback certificate is served. -/
def Manager.TLSConfig (m : Manager) : TLSConfig :=
  { GetCertificate := some (CertHook.managerGetCertificate m), Certificates := [] }

/-- The dynamic type of a `net.Conn` handed out by package `net`. -/
inductive ConnType where
  | TCPConn
  | UnixConn
  | UDPConn
  | IPConn
deriving DecidableEq, Repr

/-- A non-nil `net.Conn` interface value: its dynamic type and the descriptor
that identifies the connection. -/
structure RawConn where
  dynType : ConnType
  fd : Nat
deriving DecidableEq, Repr

/-- The dynamic type of a `net.Listener` handed out by `net.Listen`. -/
inductive ListenerType where
  | TCPListener
  | UnixListener
deriving DecidableEq, Repr

/-- A non-nil `net.Listener` interface value returned by `net.Listen`. -/
structure NetListener where
  dynType : ListenerType
  id : Nat
deriving DecidableEq, Repr

/-- A non-nil `net.Addr` value. -/
structure Addr where
  network : String
  address : String
deriving DecidableEq, Repr

/-- The `*tls.Conn` built by `tls.Server(conn, config)`: the wrapped raw
connection, the configuration it will handshake with, and the server role. -/
structure TLSConn where
  conn : RawConn
  config : TLSConfig
  isClient : Bool

/-- The function `tls.Server`. -/
def tlsServer (conn : RawConn) (config : TLSConfig) : TLSConn :=
  { conn := conn, config := config, isClient := false }

/-! ## Effects -/

/-- One call made by the wrapper, with its arguments and what it answered. -/
inductive Event where
  | netListen (network address : String) (res : Option NetListener × Option Error)
  | accept (l : NetListener) (res : Option RawConn × Option Error)
  | setKeepAlive (c : RawConn) (keepalive : Bool) (res : Option Error)
  | setKeepAlivePeriod (c : RawConn) (d : Duration) (res : Option Error)
  | tlsServer (c : RawConn) (conf : TLSConfig)
  | addr (l : NetListener) (res : Option Addr)
  | close (l : NetListener) (res : Option Error)

/-- The history of calls so far, oldest first. -/
structure World where
  trace : List Event

/-- The world after one more call. -/
def World.log (w : World) (e : Event) : World :=
  { trace := w.trace ++ [e] }

/-- What the operating system and package `net` answer to each call, given the
history so far.  Nothing is assumed about the answers. -/
structure Env where
  netListen : World → String → String → Option NetListener × Option Error
  accept : World → NetListener → Option RawConn × Option Error
  setKeepAlive : World → RawConn → Bool → Option Error
  setKeepAlivePeriod : World → RawConn → Duration → Option Error
  addr : World → NetListener → Option Addr
  close : World → NetListener → Option Error

/-- The result of running a Go function: it returns, or it panics. -/
inductive Outcome (α : Type) where
  | ret (a : α)
  | panic (msg : String)

/-! ## The wrapper -/

/-- The function `NewTLSAutoCertManager` (lines 45-54). -/
def NewTLSAutoCertManager (hostPolicy : Option HostPolicy) (operatorEmail : String)
    (renewBefore : Duration) (cacheDir : String) : CertManager :=
  let autoManager : Manager :=
    { Prompt := some AcceptTOS
      Cache := some (Cache.DirCache cacheDir)
      HostPolicy := hostPolicy
      RenewBefore := renewBefore
      Email := operatorEmail }
  some { Manager := autoManager }

/-- The struct `listener` (lines 56-61).  The field `tcpListener` is a
`net.Listener` interface, `none` when nil. -/
structure listener where
  m : certManager
  conf : TLSConfig
  tcpListener : Option NetListener

/-- The method `(*certManager).Listen` (lines 69-80). -/
def certManager.Listen (env : Env) (m : certManager) (network bindAddr : String)
    (w : World) : (Option listener × Option Error) × World :=
  let ln : listener := { m := m, conf := m.Manager.TLSConfig, tcpListener := none }
  let r := env.netListen w network bindAddr
  let w1 := w.log (Event.netListen network bindAddr r)
  let ln : listener := { ln with tcpListener := r.1 }
  match r.2 with
  | some err => ((none, some err), w1)
  | none => ((some ln, none), w1)

/-- The method `(*listener).Accept` (lines 83-94).  The result carries the
listener after the call and the world after the call. -/
def listener.Accept (env : Env) (ln : listener) (w : World) :
    Outcome (Option TLSConn × Option Error) × listener × World :=
  match ln.tcpListener with
  | none => (Outcome.panic "invalid memory address or nil pointer dereference", ln, w)
  | some l =>
    let r := env.accept w l
    let w1 := w.log (Event.accept l r)
    match r.2 with
    | some err => (Outcome.ret (none, some err), ln, w1)
    | none =>
      match r.1 with
      | none =>
        (Outcome.panic "interface conversion: interface is nil, not *net.TCPConn", ln, w1)
      | some conn =>
        match conn.dynType with
        | ConnType.TCPConn =>
          let tcpConn := conn
          let w2 := w1.log (Event.setKeepAlive tcpConn true (env.setKeepAlive w1 tcpConn true))
          let w3 := w2.log (Event.setKeepAlivePeriod tcpConn (3 * Minute)
            (env.setKeepAlivePeriod w2 tcpConn (3 * Minute)))
          let w4 := w3.log (Event.tlsServer tcpConn ln.conf)
          (Outcome.ret (some (tlsServer tcpConn ln.conf), none), ln, w4)
        | _ =>
          (Outcome.panic "interface conversion: net.Conn is not *net.TCPConn", ln, w1)

/-- The method `(*listener).Addr` (lines 97-99). -/
def listener.Addr (env : Env) (ln : listener) (w : World) :
    Outcome (Option Addr) × listener × World :=
  match ln.tcpListener with
  | none => (Outcome.panic "invalid memory address or nil pointer dereference", ln, w)
  | some l =>
    let r := env.addr w l
    (Outcome.ret r, ln, w.log (Event.addr l r))

/-- The method `(*listener).Close` (lines 102-104). -/
def listener.Close (env : Env) (ln : listener) (w : World) :
    Outcome (Option Error) × listener × World :=
  match ln.tcpListener with
  | none => (Outcome.panic "invalid memory address or nil pointer dereference", ln, w)
  | some l =>
    let r := env.close w l
    (Outcome.ret r, ln, w.log (Event.close l r))

/-! ## Concrete environments

`netEnv` follows the documentation of package `net`: `net.Listen` accepts the
networks "tcp", "tcp4", "tcp6", "unix" and "unixpacket"; a TCP listener hands
out `*net.TCPConn` connections and a Unix listener `*net.UnixConn`
connections.  The other environments make one kind of call fail. -/

/-- Package `net` on a healthy host: every bind and every accept succeeds. -/
def netEnv : Env :=
  { netListen := fun w network _address =>
      if network = "tcp" ∨ network = "tcp4" ∨ network = "tcp6" then
        (some { dynType := ListenerType.TCPListener, id := w.trace.length }, none)
      else if network = "unix" ∨ network = "unixpacket" then
        (some { dynType := ListenerType.UnixListener, id := w.trace.length }, none)
      else
        (none, some { msg := "listen " ++ network ++ ": unknown network" })
    accept := fun w l =>
      match l.dynType with
      | ListenerType.TCPListener => (some { dynType := ConnType.TCPConn, fd := w.trace.length }, none)
      | ListenerType.UnixListener => (some { dynType := ConnType.UnixConn, fd := w.trace.length }, none)
    setKeepAlive := fun _ _ _ => none
    setKeepAlivePeriod := fun _ _ _ => none
    addr := fun _ l =>
      match l.dynType with
      | ListenerType.TCPListener => some { network := "tcp", address := "[::]:8443" }
      | ListenerType.UnixListener => some { network := "unix", address := "/tmp/autocert.sock" }
    close := fun _ _ => none }

/-- A host on which every accept fails and closing reports an error. -/
def acceptFailEnv : Env :=
  { netEnv with
    accept := fun _ _ => (none, some { msg := "accept: too many open files" })
    close := fun _ _ => some { msg := "use of closed network connection" } }

/-- A host on which both keep-alive setters report an error. -/
def keepAliveFailEnv : Env :=
  { netEnv with
    setKeepAlive := fun _ _ _ => some { msg := "setsockopt: invalid argument" }
    setKeepAlivePeriod := fun _ _ _ => some { msg := "setsockopt: invalid argument" } }

/-- The world before any call. -/
def World.start : World := { trace := [] }

/-- A host policy that approves exactly "example.com". -/
def exampleOnly : HostPolicy := fun _ host =>
  if host = "example.com" then none else some { msg := "host not configured" }

/-- The `autocert.Manager` that `NewTLSAutoCertManager` builds from
`exampleOnly`, "ops@example.com", one day and "/var/cache/autocert". -/
def exampleManager : certManager :=
  { Manager :=
      { Prompt := some AcceptTOS
        Cache := some (Cache.DirCache "/var/cache/autocert")
        HostPolicy := some exampleOnly
        RenewBefore := 24 * Hour
        Email := "ops@example.com" } }

/-- The TCP listener that `netEnv` binds first. -/
def tcpBound : NetListener := { dynType := ListenerType.TCPListener, id := 0 }

/-- The Unix-domain listener that `netEnv` binds first. -/
def unixBound : NetListener := { dynType := ListenerType.UnixListener, id := 0 }

/-- The listener `exampleManager.Listen` returns for "tcp" on `netEnv`. -/
def tcpExample : listener :=
  { m := exampleManager, conf := exampleManager.Manager.TLSConfig, tcpListener := some tcpBound }

/-- The listener `exampleManager.Listen` returns for "unix" on `netEnv`. -/
def unixExample : listener :=
  { m := exampleManager, conf := exampleManager.Manager.TLSConfig, tcpListener := some unixBound }

/-- The world right after the first successful bind of `tcpBound`. -/
def tcpWorld : World :=
  World.start.log (Event.netListen "tcp" ":8443" (some tcpBound, none))

/-- The world right after the first successful bind of `unixBound`. -/
def unixWorld : World :=
  World.start.log (Event.netListen "unix" "/tmp/autocert.sock" (some unixBound, none))

/-- The first connection a TCP listener accepts in `tcpWorld`. -/
def tcpRaw : RawConn := { dynType := ConnType.TCPConn, fd := 1 }

end Autocert

namespace Autocert

/-! ## Shared lemmas -/

theorem log_trace (w : World) (e : Event) : (w.log e).trace = w.trace ++ [e] := rfl

theorem three_minutes : (3 * Minute : Duration) = 180000000000 := by
  simp [Minute, Second, Millisecond, Microsecond, Nanosecond]

theorem Listen_eq (env : Env) (m : certManager) (network bindAddr : String) (w : World) :
    m.Listen env network bindAddr w =
      (match (env.netListen w network bindAddr).2 with
        | some err => ((none, some err), w.log (Event.netListen network bindAddr
            (env.netListen w network bindAddr)))
        | none =>
          ((some { m := m, conf := m.Manager.TLSConfig,
                   tcpListener := (env.netListen w network bindAddr).1 }, none),
            w.log (Event.netListen network bindAddr (env.netListen w network bindAddr)))) := by
  unfold certManager.Listen
  rfl

/-! ## The constructor -/

/-- C1: for every hostPolicy, operatorEmail, renewBefore and cacheDir,
NewTLSAutoCertManager returns a non-nil CertManager whose embedded manager has
HostPolicy, Email and RenewBefore equal to the arguments, Cache equal to
DirCache(cacheDir) and Prompt equal to AcceptTOS, which accepts every terms of
service URL. -/
theorem NewTLSAutoCertManager_fields (hostPolicy : Option HostPolicy) (operatorEmail : String)
    (renewBefore : Duration) (cacheDir : String) :
    ∃ cm : certManager,
      NewTLSAutoCertManager hostPolicy operatorEmail renewBefore cacheDir = some cm ∧
      cm.Manager.HostPolicy = hostPolicy ∧
      cm.Manager.Email = operatorEmail ∧
      cm.Manager.RenewBefore = renewBefore ∧
      cm.Manager.Cache = some (Cache.DirCache cacheDir) ∧
      cm.Manager.Prompt = some AcceptTOS ∧
      (∀ tosURL, AcceptTOS tosURL = true) :=
  ⟨_, rfl, rfl, rfl, rfl, rfl, rfl, fun _ => rfl⟩

/-- C4, as stated, fails: called with a nil hostPolicy (and "ops@example.com",
one day, "/var/cache/autocert"), NewTLSAutoCertManager does not return a manager
whose HostPolicy is a policy refusing every hostname. -/
theorem nil_policy_not_deny_all :
    ¬ ∃ (cm : certManager) (p : HostPolicy),
      NewTLSAutoCertManager none "ops@example.com" (24 * Hour) "/var/cache/autocert" = some cm ∧
      cm.Manager.HostPolicy = some p ∧
      ∀ ctx host, p ctx host ≠ none := by
  rintro ⟨cm, p, hcm, hp, -⟩
  simp only [NewTLSAutoCertManager, Option.some.injEq] at hcm
  subst hcm
  simp at hp

/-- C4, amended: called with a nil hostPolicy, NewTLSAutoCertManager returns a
manager whose HostPolicy field is nil; the constructor installs no default
policy of its own, deny-all or other. -/
theorem nil_policy_kept_nil (operatorEmail : String) (renewBefore : Duration)
    (cacheDir : String) :
    ∃ cm : certManager,
      NewTLSAutoCertManager none operatorEmail renewBefore cacheDir = some cm ∧
      cm.Manager.HostPolicy = none :=
  ⟨_, rfl, rfl⟩

/-- C7, as stated, fails: with a nil host policy, an empty operator address, a
zero renewal lead time and the empty cache directory path,
NewTLSAutoCertManager returns a manager (not nil, no error), its cache is
DirCache(""), and Listen on it binds. -/
theorem empty_cacheDir_constructs :
    ∃ cm : certManager,
      NewTLSAutoCertManager none "" 0 "" = some cm ∧
      cm.Manager.Cache = some (Cache.DirCache "") ∧
      (cm.Listen netEnv "tcp" ":8443" World.start).1.2 = none ∧
      ((cm.Listen netEnv "tcp" ":8443" World.start).1.1).isSome = true :=
  ⟨_, rfl, rfl, by decide, by decide⟩

/-- C7, amended: NewTLSAutoCertManager validates nothing and cannot fail; for
every host policy (nil included) and every cache directory path (empty
included) it returns a non-nil manager whose cache is DirCache of the path as
given. -/
theorem NewTLSAutoCertManager_never_fails (hostPolicy : Option HostPolicy)
    (operatorEmail : String) (renewBefore : Duration) (cacheDir : String) :
    NewTLSAutoCertManager hostPolicy operatorEmail renewBefore cacheDir ≠ none ∧
    ∀ cm, NewTLSAutoCertManager hostPolicy operatorEmail renewBefore cacheDir = some cm →
      cm.Manager.Cache = some (Cache.DirCache cacheDir) ∧ cm.Manager.HostPolicy = hostPolicy := by
  refine ⟨by simp [NewTLSAutoCertManager], ?_⟩
  intro cm h
  simp only [NewTLSAutoCertManager, Option.some.injEq] at h
  subst h
  exact ⟨rfl, rfl⟩

/-! ## Listen -/

/-- C2: for every network and bindAddr, Listen makes exactly one call, net.Listen
with the given network and bindAddr; the error it returns is the bind error
unchanged (nil exactly when the bind reports none); on a bind error the
listener returned is nil; without one it is the listener whose tcpListener is
what the bind returned, whose m is the manager and whose conf is the TLS
configuration of the manager. -/
theorem Listen_binds_given_address (env : Env) (m : certManager) (network bindAddr : String)
    (w : World) :
    (m.Listen env network bindAddr w).2.trace =
      w.trace ++ [Event.netListen network bindAddr (env.netListen w network bindAddr)] ∧
    (m.Listen env network bindAddr w).1.2 = (env.netListen w network bindAddr).2 ∧
    ((m.Listen env network bindAddr w).1.2 ≠ none ↔ (env.netListen w network bindAddr).2 ≠ none) ∧
    ((env.netListen w network bindAddr).2 ≠ none →
      (m.Listen env network bindAddr w).1.1 = none) ∧
    ((env.netListen w network bindAddr).2 = none →
      (m.Listen env network bindAddr w).1.1 =
        some { m := m, conf := m.Manager.TLSConfig,
               tcpListener := (env.netListen w network bindAddr).1 }) := by
  rw [Listen_eq]
  cases h : (env.netListen w network bindAddr).2 <;> simp [log_trace]

/-! ## Accept, Addr and Close -/

/-- The world after Accept has configured and wrapped the TCP connection `raw`
accepted from `l`. -/
theorem Accept_tcp (env : Env) (ln : listener) (w : World) (l : NetListener) (raw : RawConn)
    (hl : ln.tcpListener = some l) (ha : env.accept w l = (some raw, none))
    (ht : raw.dynType = ConnType.TCPConn) :
    ln.Accept env w =
      (Outcome.ret (some (tlsServer raw ln.conf), none), ln,
        (((w.log (Event.accept l (some raw, none))).log
            (Event.setKeepAlive raw true
              (env.setKeepAlive (w.log (Event.accept l (some raw, none))) raw true))).log
            (Event.setKeepAlivePeriod raw (3 * Minute)
              (env.setKeepAlivePeriod
                ((w.log (Event.accept l (some raw, none))).log
                  (Event.setKeepAlive raw true
                    (env.setKeepAlive (w.log (Event.accept l (some raw, none))) raw true)))
                raw (3 * Minute)))).log
          (Event.tlsServer raw ln.conf)) := by
  unfold listener.Accept
  simp only [hl, ha, ht]

/-- Accept returns a connection only in the TCP case. -/
theorem Accept_ret_conn (env : Env) (ln : listener) (w : World) (c : TLSConn)
    (err : Option Error) (h : (ln.Accept env w).1 = Outcome.ret (some c, err)) :
    ∃ l raw, ln.tcpListener = some l ∧ env.accept w l = (some raw, none) ∧
      raw.dynType = ConnType.TCPConn ∧ c = tlsServer raw ln.conf ∧ err = none := by
  unfold listener.Accept at h
  cases hl : ln.tcpListener with
  | none => simp [hl] at h
  | some l =>
    simp only [hl] at h
    rcases hr : env.accept w l with ⟨oc, oe⟩
    simp only [hr] at h
    cases oe with
    | some e => simp at h
    | none =>
      cases oc with
      | none => simp at h
      | some raw =>
        simp only at h
        cases ht : raw.dynType <;> simp [ht] at h
        exact ⟨l, raw, rfl, hr, ht, h.1.symm, h.2.symm⟩

/-- Accept hands the listener back unchanged, whatever happens. -/
theorem Accept_listener (env : Env) (ln : listener) (w : World) :
    (ln.Accept env w).2.1 = ln := by
  unfold listener.Accept
  cases ln.tcpListener with
  | none => rfl
  | some l =>
    simp only
    rcases env.accept w l with ⟨oc, oe⟩
    cases oe with
    | some e => rfl
    | none =>
      cases oc with
      | none => rfl
      | some raw => cases ht : raw.dynType <;> simp [ht]

/-- Facts about the concrete listeners used below. -/
theorem example_constructed :
    NewTLSAutoCertManager (some exampleOnly) "ops@example.com" (24 * Hour)
      "/var/cache/autocert" = some exampleManager := rfl

theorem example_listen_tcp :
    exampleManager.Listen netEnv "tcp" ":8443" World.start = ((some tcpExample, none), tcpWorld) := by
  rw [Listen_eq]
  rfl

theorem example_listen_unix :
    exampleManager.Listen netEnv "unix" "/tmp/autocert.sock" World.start =
      ((some unixExample, none), unixWorld) := by
  rw [Listen_eq]
  rfl

/-- C3 fails on the code: a listener that Listen bound on the network "unix"
accepts a Unix-domain connection without error, and Accept then panics in the
conversion to *net.TCPConn instead of returning a TLS connection. -/
theorem Accept_unix_panics :
    NewTLSAutoCertManager (some exampleOnly) "ops@example.com" (24 * Hour)
      "/var/cache/autocert" = some exampleManager ∧
    exampleManager.Listen netEnv "unix" "/tmp/autocert.sock" World.start =
      ((some unixExample, none), unixWorld) ∧
    netEnv.accept unixWorld unixBound = (some { dynType := ConnType.UnixConn, fd := 1 }, none) ∧
    (unixExample.Accept netEnv unixWorld).1 =
      Outcome.panic "interface conversion: net.Conn is not *net.TCPConn" :=
  ⟨example_constructed, example_listen_unix, rfl, rfl⟩

/-- C5: the listener that Listen returns for a manager holds that manager and
the TLS configuration the manager gave at that moment; every Accept, in every
later world, leaves the listener as it was, and every connection it returns is
configured with exactly that configuration, whose certificate hook is
GetCertificate of the embedded manager and which holds no other certificate. -/
theorem Accept_serves_Listen_config (env : Env) (m : certManager) (network bindAddr : String)
    (w0 : World) (ln : listener)
    (hL : (m.Listen env network bindAddr w0).1.1 = some ln) :
    ln.m = m ∧ ln.conf = m.Manager.TLSConfig ∧
    ∀ (env2 : Env) (w : World),
      (ln.Accept env2 w).2.1 = ln ∧
      ∀ c err, (ln.Accept env2 w).1 = Outcome.ret (some c, err) →
        c.config = m.Manager.TLSConfig ∧
        c.config.GetCertificate = some (CertHook.managerGetCertificate m.Manager) ∧
        c.config.Certificates = [] := by
  rw [Listen_eq] at hL
  have hln : ln = { m := m, conf := m.Manager.TLSConfig,
                    tcpListener := (env.netListen w0 network bindAddr).1 } := by
    cases h : (env.netListen w0 network bindAddr).2 <;> simp [h] at hL
    exact hL.symm
  subst hln
  refine ⟨rfl, rfl, fun env2 w => ⟨Accept_listener _ _ _, ?_⟩⟩
  intro c err h
  obtain ⟨l, raw, -, -, -, hc, -⟩ := Accept_ret_conn _ _ _ _ _ h
  subst hc
  exact ⟨rfl, rfl, rfl⟩

theorem Accept_serves_Listen_config_witness :
    (exampleManager.Listen netEnv "tcp" ":8443" World.start).1.1 = some tcpExample ∧
    (tcpExample.Accept netEnv tcpWorld).1 =
      Outcome.ret (some (tlsServer tcpRaw tcpExample.conf), none) ∧
    (tlsServer tcpRaw tcpExample.conf).config.GetCertificate =
      some (CertHook.managerGetCertificate exampleManager.Manager) := by
  have hL : (exampleManager.Listen netEnv "tcp" ":8443" World.start).1.1 = some tcpExample := by
    rw [example_listen_tcp]
  have hA : (tcpExample.Accept netEnv tcpWorld).1 =
      Outcome.ret (some (tlsServer tcpRaw tcpExample.conf), none) := rfl
  exact ⟨hL, hA,
    ((Accept_serves_Listen_config netEnv exampleManager "tcp" ":8443" World.start tcpExample
      hL).2.2 netEnv tcpWorld).2 _ _ hA |>.2.1⟩

/-- C6: whenever Accept returns a connection, that connection wraps a TCP
connection the transport just accepted, and the calls Accept made are, in
order: the transport accept, SetKeepAlive(true) on that connection,
SetKeepAlivePeriod of 3 minutes (180000000000 ns) on it, and only then
tls.Server on it.  Whatever the two setters answer, errors included, the
connection returned is the same: any environment with the same accepts gives
the same result. -/
theorem Accept_keepalive_before_tls (env : Env) (ln : listener) (w : World) (c : TLSConn)
    (h : (ln.Accept env w).1 = Outcome.ret (some c, none)) :
    ∃ l raw, ln.tcpListener = some l ∧ env.accept w l = (some raw, none) ∧
      raw.dynType = ConnType.TCPConn ∧ c = tlsServer raw ln.conf ∧ c.conn = raw ∧
      (3 * Minute : Duration) = 180000000000 ∧
      (ln.Accept env w).2.2.trace =
        w.trace ++
          [Event.accept l (some raw, none),
           Event.setKeepAlive raw true
             (env.setKeepAlive (w.log (Event.accept l (some raw, none))) raw true),
           Event.setKeepAlivePeriod raw (3 * Minute)
             (env.setKeepAlivePeriod
               ((w.log (Event.accept l (some raw, none))).log
                 (Event.setKeepAlive raw true
                   (env.setKeepAlive (w.log (Event.accept l (some raw, none))) raw true)))
               raw (3 * Minute)),
           Event.tlsServer raw ln.conf] ∧
      ∀ env2 : Env, env2.accept = env.accept →
        (ln.Accept env2 w).1 = Outcome.ret (some c, none) := by
  obtain ⟨l, raw, hl, ha, ht, hc, -⟩ := Accept_ret_conn _ _ _ _ _ h
  refine ⟨l, raw, hl, ha, ht, hc, by rw [hc]; rfl, three_minutes, ?_, ?_⟩
  · rw [Accept_tcp env ln w l raw hl ha ht]
    simp [log_trace]
  · intro env2 h2
    rw [Accept_tcp env2 ln w l raw hl (by rw [h2]; exact ha) ht, hc]

theorem Accept_keepalive_before_tls_witness :
    (tcpExample.Accept keepAliveFailEnv tcpWorld).1 =
      Outcome.ret (some (tlsServer tcpRaw tcpExample.conf), none) ∧
    ∃ l raw, tcpExample.tcpListener = some l ∧
      keepAliveFailEnv.accept tcpWorld l = (some raw, none) ∧
      raw.dynType = ConnType.TCPConn ∧
      tlsServer tcpRaw tcpExample.conf = tlsServer raw tcpExample.conf ∧
      (tlsServer tcpRaw tcpExample.conf).conn = raw ∧
      (3 * Minute : Duration) = 180000000000 ∧
      (tcpExample.Accept keepAliveFailEnv tcpWorld).2.2.trace =
        tcpWorld.trace ++
          [Event.accept l (some raw, none),
           Event.setKeepAlive raw true
             (keepAliveFailEnv.setKeepAlive (tcpWorld.log (Event.accept l (some raw, none)))
               raw true),
           Event.setKeepAlivePeriod raw (3 * Minute)
             (keepAliveFailEnv.setKeepAlivePeriod
               ((tcpWorld.log (Event.accept l (some raw, none))).log
                 (Event.setKeepAlive raw true
                   (keepAliveFailEnv.setKeepAlive
                     (tcpWorld.log (Event.accept l (some raw, none))) raw true)))
               raw (3 * Minute)),
           Event.tlsServer raw tcpExample.conf] ∧
      ∀ env2 : Env, env2.accept = keepAliveFailEnv.accept →
        (tcpExample.Accept env2 tcpWorld).1 =
          Outcome.ret (some (tlsServer tcpRaw tcpExample.conf), none) :=
  ⟨rfl, Accept_keepalive_before_tls keepAliveFailEnv tcpExample tcpWorld
    (tlsServer tcpRaw tcpExample.conf) rfl⟩

/-- C10: on a listener with a transport listener, when the transport accept
reports an error, Accept returns a nil connection with that same error, leaves
the listener as it was, and has made the transport accept call and no other
(no keep-alive call, no tls.Server); and Accept returns an error in no other
case: an error it returns is the one the transport accept reported. -/
theorem Accept_error_only_from_transport (env : Env) (ln : listener) (w : World)
    (l : NetListener) (hl : ln.tcpListener = some l) :
    (∀ err, (env.accept w l).2 = some err →
      ln.Accept env w =
        (Outcome.ret (none, some err), ln, w.log (Event.accept l (env.accept w l))) ∧
      (ln.Accept env w).2.2.trace = w.trace ++ [Event.accept l (env.accept w l)]) ∧
    (∀ c err, (ln.Accept env w).1 = Outcome.ret (c, some err) →
      (env.accept w l).2 = some err ∧ c = none) := by
  constructor
  · intro err he
    have : ln.Accept env w =
        (Outcome.ret (none, some err), ln, w.log (Event.accept l (env.accept w l))) := by
      unfold listener.Accept
      simp only [hl, he]
    exact ⟨this, by rw [this]; rfl⟩
  · intro c err h
    unfold listener.Accept at h
    simp only [hl] at h
    rcases hr : env.accept w l with ⟨oc, oe⟩
    simp only [hr] at h
    cases oe with
    | some e =>
      simp only [Outcome.ret.injEq, Prod.mk.injEq, Option.some.injEq] at h
      exact ⟨by rw [h.2], h.1.symm⟩
    | none =>
      cases oc with
      | none => simp at h
      | some raw => cases ht : raw.dynType <;> simp [ht] at h

theorem Accept_error_only_from_transport_witness :
    tcpExample.tcpListener = some tcpBound ∧
    (acceptFailEnv.accept tcpWorld tcpBound).2 = some { msg := "accept: too many open files" } ∧
    tcpExample.Accept acceptFailEnv tcpWorld =
      (Outcome.ret (none, some { msg := "accept: too many open files" }), tcpExample,
        tcpWorld.log (Event.accept tcpBound (acceptFailEnv.accept tcpWorld tcpBound))) ∧
    (tcpExample.Accept acceptFailEnv tcpWorld).2.2.trace =
      tcpWorld.trace ++ [Event.accept tcpBound (acceptFailEnv.accept tcpWorld tcpBound)] :=
  ⟨rfl, rfl,
    (Accept_error_only_from_transport acceptFailEnv tcpExample tcpWorld tcpBound rfl).1
      { msg := "accept: too many open files" } rfl⟩

/-- C8: for the listener that Listen returns around the bound transport
listener, Addr returns exactly the address that transport listener reports, and
Close closes that transport listener and returns exactly its result; each makes
that one call and leaves the listener (m, conf, tcpListener) as it was. -/
theorem Addr_Close_delegate (env : Env) (m : certManager) (network bindAddr : String)
    (w0 : World) (ln : listener) (l : NetListener)
    (hL : (m.Listen env network bindAddr w0).1.1 = some ln)
    (hb : (env.netListen w0 network bindAddr).1 = some l) (w : World) :
    ln.Addr env w = (Outcome.ret (env.addr w l), ln, w.log (Event.addr l (env.addr w l))) ∧
    ln.Close env w = (Outcome.ret (env.close w l), ln, w.log (Event.close l (env.close w l))) ∧
    (ln.Addr env w).2.1 = ln ∧ (ln.Close env w).2.1 = ln := by
  rw [Listen_eq] at hL
  have hln : ln.tcpListener = some l := by
    cases h : (env.netListen w0 network bindAddr).2 <;> simp [h] at hL
    rw [← hL]
    exact hb
  have hA : ln.Addr env w =
      (Outcome.ret (env.addr w l), ln, w.log (Event.addr l (env.addr w l))) := by
    unfold listener.Addr
    simp only [hln]
  have hC : ln.Close env w =
      (Outcome.ret (env.close w l), ln, w.log (Event.close l (env.close w l))) := by
    unfold listener.Close
    simp only [hln]
  exact ⟨hA, hC, by rw [hA], by rw [hC]⟩

theorem Addr_Close_delegate_witness :
    (exampleManager.Listen acceptFailEnv "tcp" ":8443" World.start).1.1 = some tcpExample ∧
    (acceptFailEnv.netListen World.start "tcp" ":8443").1 = some tcpBound ∧
    (tcpExample.Addr acceptFailEnv tcpWorld).1 =
      Outcome.ret (some { network := "tcp", address := "[::]:8443" }) ∧
    (tcpExample.Close acceptFailEnv tcpWorld).1 =
      Outcome.ret (some { msg := "use of closed network connection" }) ∧
    (tcpExample.Close acceptFailEnv tcpWorld).2.1 = tcpExample := by
  have hL : (exampleManager.Listen acceptFailEnv "tcp" ":8443" World.start).1.1 =
      some tcpExample := by
    rw [Listen_eq]
    rfl
  have hb : (acceptFailEnv.netListen World.start "tcp" ":8443").1 = some tcpBound := rfl
  have h := Addr_Close_delegate acceptFailEnv exampleManager "tcp" ":8443" World.start
    tcpExample tcpBound hL hb tcpWorld
  exact ⟨hL, hb, by rw [h.1]; rfl, by rw [h.2.1]; rfl, h.2.2.2⟩

/-! ## Further properties of Accept -/

/-- Accept on a TCP connection: when the transport accept returns a connection
whose dynamic type is *net.TCPConn, Accept returns a nil error and the TLS
server connection wrapping that same connection with the configuration of the
listener. -/
theorem Accept_wraps_tcp (env : Env) (ln : listener) (w : World) (l : NetListener)
    (raw : RawConn) (hl : ln.tcpListener = some l) (ha : env.accept w l = (some raw, none))
    (ht : raw.dynType = ConnType.TCPConn) :
    (ln.Accept env w).1 =
      Outcome.ret (some { conn := raw, config := ln.conf, isClient := false }, none) := by
  rw [Accept_tcp env ln w l raw hl ha ht]
  rfl

theorem Accept_wraps_tcp_witness :
    tcpExample.tcpListener = some tcpBound ∧
    netEnv.accept tcpWorld tcpBound = (some tcpRaw, none) ∧
    tcpRaw.dynType = ConnType.TCPConn ∧
    (tcpExample.Accept netEnv tcpWorld).1 =
      Outcome.ret (some { conn := tcpRaw, config := tcpExample.conf, isClient := false }, none) :=
  ⟨rfl, rfl, rfl, Accept_wraps_tcp netEnv tcpExample tcpWorld tcpBound tcpRaw rfl rfl rfl⟩

/-- Accept on any other connection: when the transport accept returns, without
error, a connection whose dynamic type is not *net.TCPConn, Accept panics after
the accept call alone, and returns nothing. -/
theorem Accept_panics_unless_tcp (env : Env) (ln : listener) (w : World) (l : NetListener)
    (raw : RawConn) (hl : ln.tcpListener = some l) (ha : env.accept w l = (some raw, none))
    (ht : raw.dynType ≠ ConnType.TCPConn) :
    ln.Accept env w =
      (Outcome.panic "interface conversion: net.Conn is not *net.TCPConn", ln,
        w.log (Event.accept l (some raw, none))) := by
  unfold listener.Accept
  simp only [hl, ha]

theorem Accept_panics_unless_tcp_witness :
    unixExample.tcpListener = some unixBound ∧
    netEnv.accept unixWorld unixBound = (some { dynType := ConnType.UnixConn, fd := 1 }, none) ∧
    unixExample.Accept netEnv unixWorld =
      (Outcome.panic "interface conversion: net.Conn is not *net.TCPConn", unixExample,
        unixWorld.log (Event.accept unixBound
          (some { dynType := ConnType.UnixConn, fd := 1 }, none))) :=
  ⟨rfl, rfl,
    Accept_panics_unless_tcp netEnv unixExample unixWorld unixBound
      { dynType := ConnType.UnixConn, fd := 1 } rfl rfl (by decide)⟩

end Autocert
